import Mathlib

/-!
Verification of the Odoo connector service: a shallow embedding of the
TTL cache, the API-key guards, the RPC wrappers with their retry and
default-value policies, and the lead, CSV, health and dashboard route
handlers, together with theorems about the documented behaviour.

Python values that the handlers merely pass through are modelled by the
inductive type PyVal; the Python None is PyVal.pynone, and where a code
path distinguishes only None from non-None the embedding uses Option.
Times are rationals (the code compares time.time() floats with a single
strict inequality and performs one addition, both exact on rationals).
-/

/-- Model of a dynamically typed Python value as produced and consumed
by the XML-RPC layer. Float literals appearing in the code (only 0.0)
are represented exactly as rationals. -/
inductive PyVal where
  | pynone
  | pybool (b : Bool)
  | pyint (n : Int)
  | pyfloat (q : ℚ)
  | pystr (s : String)
  | pylist (xs : List PyVal)
  | pydict (kvs : List (String × PyVal))

/-- Python dict lookup on an association list with unique keys: the
first binding of the key. -/
def dictGet {β : Type} : List (String × β) → String → Option β
  | [], _ => none
  | (k', v) :: t, k => if k' = k then some v else dictGet t k

/-- Python dict assignment: replace the binding of the key in place, or
append a new binding when the key is absent. -/
def dictSet {β : Type} : List (String × β) → String → β → List (String × β)
  | [], k, v => [(k, v)]
  | (k', v') :: t, k, v => if k' = k then (k, v) :: t else (k', v') :: dictSet t k v

/-- Python dict deletion: remove every binding of the key (a dict holds
at most one). -/
def dictDel {β : Type} (l : List (String × β)) (k : String) : List (String × β) :=
  l.filter (fun p => decide (p.1 ≠ k))

/-- One cache entry of connector cache.py: the stored value together
with its absolute expiry time. The stored value is an Option because
wrapped functions may return the Python None. -/
structure CEntry (β : Type) where
  value : Option β
  expires : ℚ

/-- The cache map of SimpleCache in connector cache.py. -/
abbrev SimpleCache (β : Type) := List (String × CEntry β)

/-- SimpleCache.get from connector cache.py: return the stored value
while the entry has not expired; delete the entry and return None once
expired; return None for an absent key. The result pairs the returned
value with the cache state after the call. -/
def SimpleCache.get {β : Type} (c : SimpleCache β) (key : String) (now : ℚ) :
    Option β × SimpleCache β :=
  match dictGet c key with
  | some e => if e.expires > now then (e.value, c) else (none, dictDel c key)
  | none => (none, c)

/-- SimpleCache.set from connector cache.py: store the value with expiry
now plus ttl seconds. -/
def SimpleCache.set {β : Type} (c : SimpleCache β) (key : String) (v : Option β)
    (ttl : Int) (now : ℚ) : SimpleCache β :=
  dictSet c key ⟨v, now + (ttl : ℚ)⟩

/-- Result of one pass through the wrapper produced by the cached
decorator in connector cache.py: the returned value, the cache state
afterwards, and whether the wrapped function was invoked. -/
structure CachedStep (β : Type) where
  ret : Option β
  cache : SimpleCache β
  invoked : Bool

/-- One call of the wrapper produced by the cached decorator in
connector cache.py: serve from cache when get returns a non-None value,
otherwise invoke the wrapped function (whose return value for this call
is the parameter fret) and store its result. -/
def cachedWrapper {β : Type} (c : SimpleCache β) (key : String) (ttl : Int)
    (fret : Option β) (now : ℚ) : CachedStep β :=
  match SimpleCache.get c key now with
  | (some v, c') => ⟨some v, c', false⟩
  | (none, c') => ⟨fret, SimpleCache.set c' key fret ttl now, true⟩

theorem dictGet_dictSet {β : Type} (l : List (String × β)) (k : String) (v : β) :
    dictGet (dictSet l k v) k = some v := by
  induction l with
  | nil => simp [dictSet, dictGet]
  | cons p t ih =>
      by_cases h : p.1 = k
      · simp [dictSet, dictGet, h]
      · simp [dictSet, dictGet, h, ih]

theorem dictGet_dictDel {β : Type} (l : List (String × β)) (k : String) :
    dictGet (dictDel l k) k = none := by
  induction l with
  | nil => simp [dictDel, dictGet]
  | cons p t ih =>
      by_cases h : p.1 = k
      · simpa [dictDel, dictGet, h] using ih
      · simpa [dictDel, dictGet, h] using ih

/-- C1: after SimpleCache.set of key k to value v with TTL t at time s,
SimpleCache.get returns v at every time strictly before s + t, and at
every time at or after s + t it returns None and the entry is removed
from the cache map, so an expired entry is never returned again. -/
theorem cache_ttl_expiry {β : Type} (c : SimpleCache β) (key : String) (v : Option β)
    (ttl : Int) (s now : ℚ) :
    (now < s + ttl → (SimpleCache.get (SimpleCache.set c key v ttl s) key now).1 = v) ∧
    (s + ttl ≤ now →
      (SimpleCache.get (SimpleCache.set c key v ttl s) key now).1 = none ∧
      dictGet (SimpleCache.get (SimpleCache.set c key v ttl s) key now).2 key = none) := by
  have hg := dictGet_dictSet c key (⟨v, s + (ttl : ℚ)⟩ : CEntry β)
  constructor
  · intro h
    simp [SimpleCache.get, SimpleCache.set, hg, h]
  · intro h
    have hnl : ¬ (now < s + (ttl : ℚ)) := not_lt.mpr h
    constructor
    · simp [SimpleCache.get, SimpleCache.set, hg, hnl]
    · simp [SimpleCache.get, SimpleCache.set, hg, hnl, dictGet_dictDel]

theorem cache_ttl_expiry_witness :
    (SimpleCache.get (SimpleCache.set ([] : SimpleCache Nat) "k" (some 7) 60 0) "k" 59).1 = some 7 ∧
    (SimpleCache.get (SimpleCache.set ([] : SimpleCache Nat) "k" (some 7) 60 0) "k" 60).1 = none ∧
    dictGet (SimpleCache.get (SimpleCache.set ([] : SimpleCache Nat) "k" (some 7) 60 0) "k" 60).2 "k" = none := by
  refine ⟨(cache_ttl_expiry [] "k" (some 7) 60 0 59).1 (by norm_num), ?_, ?_⟩
  · exact ((cache_ttl_expiry [] "k" (some 7) 60 0 60).2 (by norm_num)).1
  · exact ((cache_ttl_expiry [] "k" (some 7) 60 0 60).2 (by norm_num)).2

/-- C9: a wrapped function whose result is None is never served from
cache. After a cache-miss call whose wrapped function returned None,
SimpleCache.get still yields None for that key at any later time (a
stored None value is indistinguishable from an absent or expired key),
so the next wrapper call invokes the underlying function again and
returns that fresh result. -/
theorem cached_none_never_served {β : Type} (c : SimpleCache β) (key : String)
    (ttl : Int) (now now' : ℚ) (g : Option β)
    (hmiss : (SimpleCache.get c key now).1 = none) :
    (cachedWrapper c key ttl none now).invoked = true ∧
    (SimpleCache.get (cachedWrapper c key ttl none now).cache key now').1 = none ∧
    (cachedWrapper (cachedWrapper c key ttl none now).cache key ttl g now').invoked = true ∧
    (cachedWrapper (cachedWrapper c key ttl none now).cache key ttl g now').ret = g := by
  rcases hget : SimpleCache.get c key now with ⟨r, c'⟩
  rw [hget] at hmiss
  simp only at hmiss
  subst hmiss
  have h1 : cachedWrapper c key ttl none now =
      ⟨none, SimpleCache.set c' key none ttl now, true⟩ := by
    simp [cachedWrapper, hget]
  have hg1 : dictGet (SimpleCache.set c' key none ttl now) key =
      some (⟨none, now + (ttl : ℚ)⟩ : CEntry β) := dictGet_dictSet c' key _
  have h2 : ∀ t : ℚ, (SimpleCache.get (SimpleCache.set c' key none ttl now) key t).1 = none := by
    intro t
    simp only [SimpleCache.get, hg1]
    split <;> rfl
  rcases hget2 : SimpleCache.get (SimpleCache.set c' key none ttl now) key now' with ⟨r2, c2⟩
  have hr2 : r2 = none := by
    have := h2 now'
    rw [hget2] at this
    simpa using this
  subst hr2
  have h3 : cachedWrapper (SimpleCache.set c' key none ttl now) key ttl g now' =
      ⟨g, SimpleCache.set c2 key g ttl now', true⟩ := by
    simp [cachedWrapper, hget2]
  refine ⟨by rw [h1], ?_, ?_, ?_⟩
  · rw [h1]; exact h2 now'
  · rw [h1]; simp [h3]
  · rw [h1]; simp [h3]

theorem cached_none_never_served_witness :
    (cachedWrapper ([] : SimpleCache Nat) "k" 60 none 0).invoked = true ∧
    (SimpleCache.get (cachedWrapper ([] : SimpleCache Nat) "k" 60 none 0).cache "k" 10).1 = none ∧
    (cachedWrapper (cachedWrapper ([] : SimpleCache Nat) "k" 60 none 0).cache "k" 60 (some 5) 10).invoked = true ∧
    (cachedWrapper (cachedWrapper ([] : SimpleCache Nat) "k" 60 none 0).cache "k" 60 (some 5) 10).ret = some 5 :=
  cached_none_never_served [] "k" 60 0 10 (some 5) rfl

/-- Outcome of an API-key guard: the request proceeds with the given
key string, or it is rejected with HTTP 401 Unauthorized. -/
inductive ApiKeyResult where
  | accepted (key : String)
  | unauthorized401
deriving DecidableEq

/-- get_api_key from connector dependencies.py: when the configured
API_KEY still equals the placeholder default, validation is skipped and
the literal string default-key is returned; otherwise the X-API-Key
header (None when missing) must equal API_KEY, else 401 is raised. -/
def get_api_key (apiKeyCfg : String) (header : Option String) : ApiKeyResult :=
  if apiKeyCfg = "your-secure-api-key" then .accepted "default-key"
  else
    match header with
    | some k => if k = apiKeyCfg then .accepted k else .unauthorized401
    | none => .unauthorized401

/-- require_api_key from connector app.py: accept exactly when the
X-API-Key header equals the configured API_KEY, otherwise respond 401.
A missing header (None) never equals the configured string. -/
def require_api_key (apiKeyCfg : String) (header : Option String) : Bool :=
  match header with
  | some k => decide (k = apiKeyCfg)
  | none => false

/-- Outcome of the underlying models.execute_kw XML-RPC call. -/
inductive RpcOutcome where
  | ok (v : PyVal)
  | protocolError
  | rpcError

/-- execute_kw from connector odoo_client.py with the remote call
abstracted into its outcome: return None when no connection is
available, return the call result on success, and catch both
xmlrpc ProtocolError and any other exception, returning None. -/
def execute_kw (conn : Bool) (rpc : RpcOutcome) : PyVal :=
  if conn then
    match rpc with
    | .ok v => v
    | .protocolError => .pynone
    | .rpcError => .pynone
  else .pynone

/-- Per-method default values used by the except branches of
execute_kw_async and batch_execute in connector odoo_client.py. -/
def methodDefault (method : String) : PyVal :=
  if method = "search_count" then .pyint 0
  else if method = "read_group" then .pylist [.pydict [("expected_revenue", .pyfloat 0)]]
  else if method = "search_read" then .pylist []
  else .pynone

/-- Outcome of awaiting the thread-pool execution of execute_kw inside
execute_kw_async: either the value execute_kw returned, or an exception
raised during the async execution. -/
inductive AsyncOutcome where
  | ok (v : PyVal)
  | exn

/-- execute_kw_async from connector odoo_client.py: on success, a None
result of a search_count call is replaced by 0; on an exception raised
during the async execution, the per-method default is returned. -/
def execute_kw_async (method : String) (run : AsyncOutcome) : PyVal :=
  match run with
  | .ok r =>
      if method = "search_count" then
        match r with
        | .pynone => .pyint 0
        | _ => r
      else r
  | .exn => methodDefault method

/-- C2 counterexample: with the configured API_KEY left at the
placeholder default, get_api_key accepts a request with a missing
X-API-Key header and one with a wrong header instead of rejecting them
with 401, so the claim fails as stated. -/
theorem api_key_default_bypass_cex :
    get_api_key "your-secure-api-key" none = .accepted "default-key" ∧
    get_api_key "your-secure-api-key" none ≠ .unauthorized401 ∧
    get_api_key "your-secure-api-key" (some "wrong-key") ≠ .unauthorized401 := by
  refine ⟨rfl, ?_, ?_⟩ <;> decide

/-- C2 amended: when the configured API_KEY differs from the placeholder
default, get_api_key rejects a missing or non-matching X-API-Key header
with 401 and accepts a matching one; when API_KEY equals the
placeholder, every request is accepted. The Flask require_api_key
decorator accepts exactly the requests whose header equals API_KEY. -/
theorem api_key_guard_spec (apiKeyCfg : String) (header : Option String) :
    (apiKeyCfg = "your-secure-api-key" →
      get_api_key apiKeyCfg header = .accepted "default-key") ∧
    (apiKeyCfg ≠ "your-secure-api-key" →
      (get_api_key apiKeyCfg header = .unauthorized401 ↔ header ≠ some apiKeyCfg) ∧
      (header = some apiKeyCfg → get_api_key apiKeyCfg header = .accepted apiKeyCfg)) ∧
    (require_api_key apiKeyCfg header = true ↔ header = some apiKeyCfg) := by
  refine ⟨fun h => by simp [get_api_key, h], fun h => ⟨?_, ?_⟩, ?_⟩
  · cases header with
    | none => simp [get_api_key, h]
    | some k =>
        by_cases hk : k = apiKeyCfg <;> simp [get_api_key, h, hk]
  · intro hh
    subst hh
    simp [get_api_key, h]
  · cases header with
    | none => simp [require_api_key]
    | some k => simp [require_api_key]

theorem api_key_guard_spec_witness :
    get_api_key "s3cret" none = .unauthorized401 ∧
    get_api_key "s3cret" (some "s3cret") = .accepted "s3cret" ∧
    require_api_key "s3cret" (some "s3cret") = true := by
  have h := api_key_guard_spec "s3cret" none
  have h2 := api_key_guard_spec "s3cret" (some "s3cret")
  exact ⟨((h.2.1 (by decide)).1).mpr (by simp),
         (h2.2.1 (by decide)).2 rfl,
         (h2.2.2).mpr rfl⟩

/-- C3: execute_kw converts both exception paths of the remote call into
None, and execute_kw_async converts an exception during async execution
into the per-method default value, 0 for search_count, the empty list
for search_read, one group with expected_revenue 0.0 for read_group,
and None for every other method; a None result of a successful
search_count call is also replaced by 0. -/
theorem execute_kw_error_defaults (conn : Bool) (method : String) :
    execute_kw conn .protocolError = .pynone ∧
    execute_kw conn .rpcError = .pynone ∧
    execute_kw_async "search_count" (.ok .pynone) = .pyint 0 ∧
    execute_kw_async "search_count" .exn = .pyint 0 ∧
    execute_kw_async "search_read" .exn = .pylist [] ∧
    execute_kw_async "read_group" .exn =
      .pylist [.pydict [("expected_revenue", .pyfloat 0)]] ∧
    (method ≠ "search_count" → method ≠ "search_read" → method ≠ "read_group" →
      execute_kw_async method .exn = .pynone) := by
  refine ⟨?_, ?_, rfl, rfl, rfl, rfl, ?_⟩
  · cases conn <;> rfl
  · cases conn <;> rfl
  · intro h1 h2 h3
    simp [execute_kw_async, methodDefault, h1, h2, h3]

theorem execute_kw_error_defaults_witness :
    execute_kw true .protocolError = .pynone ∧
    execute_kw_async "write" .exn = .pynone := by
  have h := execute_kw_error_defaults true "write"
  exact ⟨h.1, h.2.2.2.2.2.2 (by decide) (by decide) (by decide)⟩

/-- MAX_RETRIES from connector config.py. -/
def MAX_RETRIES : Nat := 5

/-- RETRY_DELAY from connector config.py, in seconds. -/
def RETRY_DELAY : Nat := 5

/-- Outcome of one common.authenticate call inside connect_to_odoo: the
returned user id (Python False and 0 are both falsy and modelled as 0),
or an exception. -/
inductive AuthResult where
  | ok (uid : Nat)
  | err
deriving DecidableEq

/-- An authenticate outcome is truthy when it returned a nonzero uid. -/
def authTruthy : AuthResult → Bool
  | .ok uid => uid != 0
  | .err => false

/-- An authenticate outcome that raised an exception. -/
def authRaised : AuthResult → Bool
  | .ok _ => false
  | .err => true

/-- Observable trace of connect_to_odoo from connector odoo_client.py:
the returned uid (None for the all-attempts-failed return), the number
of authenticate calls made, and the number of RETRY_DELAY sleeps. -/
structure ConnectTrace where
  result : Option Nat
  calls : Nat
  sleeps : Nat
deriving DecidableEq

/-- The retry loop of connect_to_odoo, indexed by the current attempt
number and the remaining fuel (range MAX_RETRIES gives initial fuel
MAX_RETRIES at attempt 0): a truthy uid returns immediately; a falsy
uid moves to the next attempt without sleeping; an exception sleeps
RETRY_DELAY before the next attempt unless this was the last one. -/
def connectLoop (auth : Nat → AuthResult) : Nat → Nat → ConnectTrace
  | _, 0 => ⟨none, 0, 0⟩
  | attempt, fuel + 1 =>
    match auth attempt with
    | .ok uid =>
        if uid ≠ 0 then ⟨some uid, 1, 0⟩
        else
          let t := connectLoop auth (attempt + 1) fuel
          ⟨t.result, t.calls + 1, t.sleeps⟩
    | .err =>
        let s := if attempt < MAX_RETRIES - 1 then 1 else 0
        let t := connectLoop auth (attempt + 1) fuel
        ⟨t.result, t.calls + 1, t.sleeps + s⟩

/-- connect_to_odoo from connector odoo_client.py, with the sequence of
authenticate outcomes abstracted as the function auth. -/
def connect_to_odoo (auth : Nat → AuthResult) : ConnectTrace :=
  connectLoop auth 0 MAX_RETRIES

/-- HealthCheckResponse from connector routes health.py. -/
structure HealthCheckResponse where
  status : String
  odoo_connected : Bool
  timestamp : String
  error : Option String
deriving DecidableEq

/-- health_check from connector routes health.py: healthy exactly when
connect_to_odoo returned a truthy uid; the timestamp parameter stands
for datetime.now().isoformat(). -/
def health_check (uid : Option Nat) (ts : String) : HealthCheckResponse :=
  match uid with
  | some _ => ⟨"healthy", true, ts, none⟩
  | none => ⟨"unhealthy", false, ts, some "Could not connect to Odoo"⟩

/-- An attempt of the retry loop is followed by a RETRY_DELAY sleep
exactly when it raised an exception and was not the final attempt. -/
def sleepFlag (auth : Nat → AuthResult) (j : Nat) : Bool :=
  authRaised (auth j) && decide (j < MAX_RETRIES - 1)

theorem connectLoop_calls_le (auth : Nat → AuthResult) :
    ∀ fuel attempt, (connectLoop auth attempt fuel).calls ≤ fuel := by
  intro fuel
  induction fuel with
  | zero => intro attempt; simp [connectLoop]
  | succ n ih =>
      intro attempt
      cases ha : auth attempt with
      | ok uid =>
          by_cases hu : uid = 0
          · subst hu
            simp only [connectLoop, ha]
            simpa using Nat.succ_le_succ (ih (attempt + 1))
          · simp [connectLoop, ha, hu]
      | err =>
          simp only [connectLoop, ha]
          simpa using Nat.succ_le_succ (ih (attempt + 1))

theorem connectLoop_all_fail (auth : Nat → AuthResult) :
    ∀ fuel attempt, (∀ j, attempt ≤ j → j < attempt + fuel → authTruthy (auth j) = false) →
    connectLoop auth attempt fuel =
      ⟨none, fuel, (List.range' attempt fuel).countP (sleepFlag auth)⟩ := by
  intro fuel
  induction fuel with
  | zero => intro attempt _; simp [connectLoop, List.range']
  | succ n ih =>
      intro attempt h
      have h0 : authTruthy (auth attempt) = false := h attempt le_rfl (by omega)
      have hrest := ih (attempt + 1) (fun j hj1 hj2 => h j (by omega) (by omega))
      cases ha : auth attempt with
      | ok uid =>
          have hu : uid = 0 := by
            rw [ha] at h0; simpa [authTruthy] using h0
          subst hu
          simp only [connectLoop, ha, ne_eq, not_true_eq_false, if_false, hrest,
            List.range'_succ, List.countP_cons, sleepFlag, authRaised, Bool.false_and]
          simp
      | err =>
          simp only [connectLoop, ha, hrest, List.range'_succ, List.countP_cons,
            sleepFlag, authRaised, Bool.true_and]
          simp [decide_eq_true_eq]

theorem connectLoop_success (auth : Nat → AuthResult) :
    ∀ fuel attempt k uid, attempt ≤ k → k < attempt + fuel →
      auth k = .ok uid → uid ≠ 0 →
      (∀ j, attempt ≤ j → j < k → authTruthy (auth j) = false) →
      connectLoop auth attempt fuel =
        ⟨some uid, k - attempt + 1, (List.range' attempt (k - attempt)).countP (sleepFlag auth)⟩ := by
  intro fuel
  induction fuel with
  | zero =>
      intro attempt k uid h1 h2 _ _ _
      exact absurd h2 (by omega)
  | succ n ih =>
      intro attempt k uid h1 h2 hk hu hpre
      rcases Nat.eq_or_lt_of_le h1 with heq | hlt
      · subst heq
        simp [connectLoop, hk, hu, List.range']
      · have h0 : authTruthy (auth attempt) = false := hpre attempt le_rfl hlt
        have hrest := ih (attempt + 1) k uid (by omega) (by omega) hk hu
          (fun j hj1 hj2 => hpre j (by omega) hj2)
        have hsub : k - attempt = (k - (attempt + 1)) + 1 := by omega
        cases ha : auth attempt with
        | ok uid0 =>
            have hu0 : uid0 = 0 := by
              rw [ha] at h0; simpa [authTruthy] using h0
            subst hu0
            simp only [connectLoop, ha, ne_eq, not_true_eq_false, if_false, hrest,
              hsub, List.range'_succ, List.countP_cons, sleepFlag, authRaised,
              Bool.false_and]
            simp
        | err =>
            simp only [connectLoop, ha, hrest, hsub, List.range'_succ,
              List.countP_cons, sleepFlag, authRaised, Bool.true_and]
            simp [decide_eq_true_eq]

/-- A concrete authenticate schedule: the first attempt raises, the
second returns a falsy uid, every later attempt returns uid 7. -/
def authSample : Nat → AuthResult := fun n =>
  if n = 0 then .err else if n = 1 then .ok 0 else .ok 7

/-- C4 counterexample: when every authenticate call returns a falsy uid,
connect_to_odoo makes five failed attempts yet sleeps zero times, not
the four RETRY_DELAY waits the claim requires between consecutive
failed attempts: the loop sleeps only in its exception branch. -/
theorem connect_no_sleep_on_falsy_cex :
    connect_to_odoo (fun _ => .ok 0) = ⟨none, 5, 0⟩ ∧
    (connect_to_odoo (fun _ => .ok 0)).sleeps ≠
      (connect_to_odoo (fun _ => .ok 0)).calls - 1 := by
  refine ⟨?_, ?_⟩ <;> decide

/-- C4 amended: connect_to_odoo calls authenticate at most MAX_RETRIES
times; it returns the uid of the first attempt yielding a truthy uid,
having slept RETRY_DELAY once after each earlier attempt that raised an
exception; when no attempt yields a truthy uid it makes all MAX_RETRIES
calls and returns None, having slept after exactly the attempts that
raised an exception, the final attempt excepted. Attempts that return a
falsy uid without raising proceed immediately with no wait. -/
theorem connect_to_odoo_spec (auth : Nat → AuthResult) :
    (connect_to_odoo auth).calls ≤ MAX_RETRIES ∧
    (∀ k uid, k < MAX_RETRIES → auth k = .ok uid → uid ≠ 0 →
      (∀ j, j < k → authTruthy (auth j) = false) →
      connect_to_odoo auth =
        ⟨some uid, k + 1, (List.range k).countP (sleepFlag auth)⟩) ∧
    ((∀ j, j < MAX_RETRIES → authTruthy (auth j) = false) →
      connect_to_odoo auth =
        ⟨none, MAX_RETRIES, (List.range MAX_RETRIES).countP (sleepFlag auth)⟩) := by
  refine ⟨connectLoop_calls_le auth MAX_RETRIES 0, ?_, ?_⟩
  · intro k uid hk ha hu hpre
    have := connectLoop_success auth MAX_RETRIES 0 k uid (Nat.zero_le k) (by omega) ha hu
      (fun j _ hj => hpre j hj)
    rw [connect_to_odoo, this, List.range_eq_range']
    simp
  · intro h
    have := connectLoop_all_fail auth MAX_RETRIES 0 (fun j _ hj => h j (by omega))
    rw [connect_to_odoo, this, List.range_eq_range']

theorem connect_to_odoo_spec_witness :
    connect_to_odoo authSample = ⟨some 7, 3, 1⟩ ∧
    connect_to_odoo (fun _ => AuthResult.err) = ⟨none, 5, 4⟩ := by
  constructor
  · have h := (connect_to_odoo_spec authSample).2.1 2 7 (by decide) (by decide)
      (by decide) (by decide)
    exact h.trans (by decide)
  · have h := (connect_to_odoo_spec (fun _ => AuthResult.err)).2.2 (fun j _ => rfl)
    exact h.trans (by decide)

/-- C7: the health route reports status healthy with odoo_connected true
and error None exactly when some authenticate attempt within the retry
budget yielded a truthy user id, and otherwise reports unhealthy with
odoo_connected false and the error string Could not connect to Odoo; the
response carries the timestamp in both cases. -/
theorem health_check_spec (auth : Nat → AuthResult) (ts : String) :
    (health_check (connect_to_odoo auth).result ts).timestamp = ts ∧
    ((∃ j, j < MAX_RETRIES ∧ authTruthy (auth j) = true) →
      health_check (connect_to_odoo auth).result ts = ⟨"healthy", true, ts, none⟩) ∧
    ((∀ j, j < MAX_RETRIES → authTruthy (auth j) = false) →
      health_check (connect_to_odoo auth).result ts =
        ⟨"unhealthy", false, ts, some "Could not connect to Odoo"⟩) := by
  refine ⟨?_, ?_, ?_⟩
  · cases h : (connect_to_odoo auth).result <;> simp [health_check, h]
  · rintro ⟨j, hj5, hjT⟩
    have hex : ∃ i, authTruthy (auth i) = true := ⟨j, hjT⟩
    have hkT : authTruthy (auth (Nat.find hex)) = true := Nat.find_spec hex
    have hkmin : ∀ i, i < Nat.find hex → authTruthy (auth i) = false := by
      intro i hi
      have := Nat.find_min hex hi
      simpa using this
    have hk5 : Nat.find hex < MAX_RETRIES :=
      lt_of_le_of_lt (Nat.find_min' hex hjT) hj5
    obtain ⟨uid, hku, hu0⟩ : ∃ uid, auth (Nat.find hex) = .ok uid ∧ uid ≠ 0 := by
      cases ha : auth (Nat.find hex) with
      | ok uid =>
          refine ⟨uid, rfl, ?_⟩
          rw [ha] at hkT
          simpa [authTruthy] using hkT
      | err =>
          rw [ha] at hkT
          simp [authTruthy] at hkT
    have hl := connectLoop_success auth MAX_RETRIES 0 (Nat.find hex) uid
      (Nat.zero_le _) (by omega) hku hu0 (fun i _ hi => hkmin i hi)
    show health_check (connectLoop auth 0 MAX_RETRIES).result ts = _
    rw [hl]
    rfl
  · intro h
    have hl := connectLoop_all_fail auth MAX_RETRIES 0 (fun i _ hi => h i (by omega))
    show health_check (connectLoop auth 0 MAX_RETRIES).result ts = _
    rw [hl]
    rfl

theorem health_check_spec_witness :
    health_check (connect_to_odoo (fun _ => AuthResult.ok 3)).result "t" =
      ⟨"healthy", true, "t", none⟩ ∧
    health_check (connect_to_odoo (fun _ => AuthResult.err)).result "t" =
      ⟨"unhealthy", false, "t", some "Could not connect to Odoo"⟩ := by
  constructor
  · exact (health_check_spec (fun _ => AuthResult.ok 3) "t").2.1 ⟨0, by decide, rfl⟩
  · exact (health_check_spec (fun _ => AuthResult.err) "t").2.2 (fun j _ => rfl)

/-- Outcome of one gathered task inside batch_execute: the value the
task produced, or the exception captured by return_exceptions=True. -/
inductive TaskOutcome where
  | val (v : PyVal)
  | exn

/-- One element of the calls list passed to batch_execute in connector
odoo_client.py, abstracted to its method name (which selects the
default on failure) and the outcome of its task. -/
structure BatchCall where
  method : String
  outcome : TaskOutcome

/-- Result substitution applied to each gathered outcome by
batch_execute: exceptions are replaced by the per-method default. -/
def taskResult (c : BatchCall) : PyVal :=
  match c.outcome with
  | .val v => v
  | .exn => methodDefault c.method

/-- batch_execute from connector odoo_client.py: process the calls in
sub-batches of five, appending the gathered results of each sub-batch
in order, with exceptions replaced by per-method defaults. -/
def batch_execute : List BatchCall → List PyVal
  | [] => []
  | c :: rest =>
      ((c :: rest).take 5).map taskResult ++ batch_execute ((c :: rest).drop 5)
termination_by l => l.length
decreasing_by
  simp only [List.length_drop, List.length_cons]
  omega

theorem batch_execute_eq_map : ∀ l : List BatchCall, batch_execute l = l.map taskResult := by
  have key : ∀ n, ∀ l : List BatchCall, l.length ≤ n → batch_execute l = l.map taskResult := by
    intro n
    induction n with
    | zero =>
        intro l h
        have : l = [] := List.eq_nil_of_length_eq_zero (Nat.le_zero.mp h)
        subst this
        rw [batch_execute]
        rfl
    | succ n ih =>
        intro l h
        cases l with
        | nil =>
            rw [batch_execute]
            rfl
        | cons c rest =>
            have h' : rest.length + 1 ≤ n + 1 := by simpa using h
            rw [batch_execute]
            rw [ih ((c :: rest).drop 5)
              (by simp only [List.length_drop, List.length_cons]; omega)]
            rw [← List.map_append, List.take_append_drop]
  intro l
  exact key l.length l le_rfl

/-- C8: batch_execute returns exactly one result per input call, the
i-th result belonging to the i-th call despite the sub-batching in
chunks of five, and a call whose task raised contributes the per-method
default, 0 for search_count, one group with expected_revenue 0.0 for
read_group, the empty list for search_read, and None otherwise. -/
theorem batch_execute_spec (calls : List BatchCall) :
    (batch_execute calls).length = calls.length ∧
    ∀ i : Nat, (batch_execute calls).get? i =
      (calls.get? i).map (fun c =>
        match c.outcome with
        | .val v => v
        | .exn =>
            if c.method = "search_count" then .pyint 0
            else if c.method = "read_group" then
              .pylist [.pydict [("expected_revenue", .pyfloat 0)]]
            else if c.method = "search_read" then .pylist []
            else .pynone) := by
  rw [batch_execute_eq_map]
  refine ⟨List.length_map _ _, fun i => ?_⟩
  rw [List.get?_map]
  rcases calls.get? i with _ | c
  · rfl
  · cases c with
    | mk method outcome =>
        cases outcome with
        | val v => rfl
        | exn => simp [taskResult, methodDefault]

/-- A resolved many-to-one field in the JSON output: the object with
keys id and name built from the remote (id, name) pair. -/
structure M2O where
  id : Int
  name : String
deriving DecidableEq

/-- One record returned by the crm.lead search_read call in connector
routes leads.py: many-to-one fields carry the remote (id, name) pair or
are falsy (None here); scalar fields are passed through unmodified and
kept as opaque Python values. -/
structure RawLead where
  id : Int
  name : String
  partner_name : PyVal
  contact_name : PyVal
  email_from : PyVal
  phone : PyVal
  user_id : Option (Int × String)
  team_id : Option (Int × String)
  stage_id : Option (Int × String)
  leadType : PyVal
  probability : PyVal
  expected_revenue : PyVal
  date_deadline : PyVal
  create_date : PyVal
  write_date : PyVal
  tag_ids : List Int
  priority : PyVal

/-- A lead after the post-processing loop of get_leads: the three
many-to-one fields replaced by id-name objects and the resolved tags
list added; every other field of the record is untouched. -/
structure ProcessedLead where
  id : Int
  name : String
  partner_name : PyVal
  contact_name : PyVal
  email_from : PyVal
  phone : PyVal
  user_id : Option M2O
  team_id : Option M2O
  stage_id : Option M2O
  leadType : PyVal
  probability : PyVal
  expected_revenue : PyVal
  date_deadline : PyVal
  create_date : PyVal
  write_date : PyVal
  tag_ids : List Int
  priority : PyVal
  tags : List String

/-- Lookup in a Python dict comprehension built from a list of pairs:
a later pair with the same key overrides an earlier one. -/
def lastLookup : List (Int × String) → Int → Option String
  | [], _ => none
  | (k, v) :: t, i =>
      match lastLookup t i with
      | some r => some r
      | none => if k = i then some v else none

/-- The tag_data dict of get_leads: built from the crm.tag read result
when that result is truthy, empty when the read returned None or an
empty list. -/
def tagDictOf (tagsResult : Option (List (Int × String))) : List (Int × String) :=
  match tagsResult with
  | some ts => if ts.isEmpty then [] else ts
  | none => []

/-- The per-lead post-processing loop body of get_leads in connector
routes leads.py: convert each truthy many-to-one field to an id-name
object and attach the resolved tags, defaulting an unresolved tag id to
the string Unknown (id). -/
def processLead (tag_data : List (Int × String)) (lead : RawLead) : ProcessedLead :=
  { id := lead.id
    name := lead.name
    partner_name := lead.partner_name
    contact_name := lead.contact_name
    email_from := lead.email_from
    phone := lead.phone
    user_id := lead.user_id.map (fun p => ⟨p.1, p.2⟩)
    team_id := lead.team_id.map (fun p => ⟨p.1, p.2⟩)
    stage_id := lead.stage_id.map (fun p => ⟨p.1, p.2⟩)
    leadType := lead.leadType
    probability := lead.probability
    expected_revenue := lead.expected_revenue
    date_deadline := lead.date_deadline
    create_date := lead.create_date
    write_date := lead.write_date
    tag_ids := lead.tag_ids
    priority := lead.priority
    tags :=
      if lead.tag_ids.isEmpty then []
      else lead.tag_ids.map (fun tid =>
        match lastLookup tag_data tid with
        | some n => n
        | none => "Unknown (" ++ toString tid ++ ")") }

/-- The response of GET api/leads: an object with exactly the keys
count, limit, offset and data. -/
structure LeadListResponse where
  count : PyVal
  limit : Int
  offset : Int
  data : List ProcessedLead

/-- get_leads from connector routes leads.py on the success path, given
the already-fetched count result, lead records and crm.tag read result:
post-process every lead and wrap the list with pagination info. -/
def get_leads (total_count : PyVal) (limit offset : Int) (leads : List RawLead)
    (tagsResult : Option (List (Int × String))) : LeadListResponse :=
  ⟨total_count, limit, offset, leads.map (processLead (tagDictOf tagsResult))⟩

/-- C5: given mocked remote responses where the count query and the lead
search succeed, the response of GET api/leads carries exactly count,
limit, offset and data; each present many-to-one field among user_id,
team_id and stage_id of every returned lead is replaced by an id-name
object built from the remote pair, and tags lists the resolved tag name
of each of the leads tag ids, with Unknown (id) for an id the crm.tag
read did not resolve, and is empty when the lead has no tag ids. -/
theorem get_leads_shape_spec (total_count : PyVal) (limit offset : Int)
    (leads : List RawLead) (tagsResult : Option (List (Int × String))) :
    (get_leads total_count limit offset leads tagsResult).count = total_count ∧
    (get_leads total_count limit offset leads tagsResult).limit = limit ∧
    (get_leads total_count limit offset leads tagsResult).offset = offset ∧
    (get_leads total_count limit offset leads tagsResult).data.length = leads.length ∧
    ∀ i : Nat,
      ((get_leads total_count limit offset leads tagsResult).data.get? i).map
          (fun p => (p.user_id, p.team_id, p.stage_id, p.tags)) =
        (leads.get? i).map (fun l =>
          (l.user_id.map (fun q => M2O.mk q.1 q.2),
           l.team_id.map (fun q => M2O.mk q.1 q.2),
           l.stage_id.map (fun q => M2O.mk q.1 q.2),
           if l.tag_ids.isEmpty then ([] : List String)
           else l.tag_ids.map (fun tid =>
             match lastLookup (tagDictOf tagsResult) tid with
             | some n => n
             | none => "Unknown (" ++ toString tid ++ ")"))) := by
  refine ⟨rfl, rfl, rfl, by simp [get_leads], fun i => ?_⟩
  show ((leads.map (processLead (tagDictOf tagsResult))).get? i).map _ = _
  rw [List.get?_map]
  rcases leads.get? i with _ | l
  · rfl
  · rfl

/-- The dict built for one lead by the CSV loop of get_leads_csv in
connector routes leads.py, with its keys in the insertion order of the
source: these keys become the DataFrame columns. -/
def csvRecord (lead : RawLead) : List (String × PyVal) :=
  [("id", .pyint lead.id),
   ("name", .pystr lead.name),
   ("partner_name", lead.partner_name),
   ("contact_name", lead.contact_name),
   ("email", lead.email_from),
   ("phone", lead.phone),
   ("user_name", match lead.user_id with | some p => .pystr p.2 | none => .pynone),
   ("team_name", match lead.team_id with | some p => .pystr p.2 | none => .pynone),
   ("stage_name", match lead.stage_id with | some p => .pystr p.2 | none => .pynone),
   ("type", lead.leadType),
   ("probability", lead.probability),
   ("expected_revenue", lead.expected_revenue),
   ("date_deadline", lead.date_deadline),
   ("create_date", lead.create_date),
   ("write_date", lead.write_date),
   ("priority", lead.priority)]

/-- get_leads_csv from connector routes leads.py on the success path:
build one record per lead in order; an empty record list yields the 404
response, modelled as None. The pandas DataFrame built from records
sharing one key set, written with to_csv and index False, emits those
keys as the header row and the records as data rows in list order, so
the record table is the CSV body. -/
def get_leads_csv (leads : List RawLead) : Option (List (List (String × PyVal))) :=
  let processed_data := leads.map csvRecord
  if processed_data.isEmpty then none
  else some processed_data

/-- The header row pandas derives for a record table: the key order of
its records. -/
def csvHeaderOf (rows : List (List (String × PyVal))) : List String :=
  match rows with
  | [] => []
  | r :: _ => r.map Prod.fst

/-- C6: for every non-empty lead query result, the CSV table of GET
api/leads/csv has the header columns id, name, partner_name,
contact_name, email, phone, user_name, team_name, stage_name, type,
probability, expected_revenue, date_deadline, create_date, write_date,
priority in that order (every row carries exactly those keys in that
order), and one data row per returned lead in the order returned. -/
theorem get_leads_csv_spec (leads : List RawLead) (hne : leads ≠ []) :
    ∃ rows, get_leads_csv leads = some rows ∧
      csvHeaderOf rows =
        ["id", "name", "partner_name", "contact_name", "email", "phone",
         "user_name", "team_name", "stage_name", "type", "probability",
         "expected_revenue", "date_deadline", "create_date", "write_date",
         "priority"] ∧
      (∀ r ∈ rows, r.map Prod.fst =
        ["id", "name", "partner_name", "contact_name", "email", "phone",
         "user_name", "team_name", "stage_name", "type", "probability",
         "expected_revenue", "date_deadline", "create_date", "write_date",
         "priority"]) ∧
      rows.length = leads.length ∧
      ∀ i : Nat, rows.get? i = (leads.get? i).map csvRecord := by
  refine ⟨leads.map csvRecord, ?_, ?_, ?_, by simp, fun i => List.get?_map _ _ _⟩
  · simp [get_leads_csv, hne]
  · cases leads with
    | nil => exact absurd rfl hne
    | cons l t => rfl
  · intro r hr
    rcases List.mem_map.mp hr with ⟨l, _, rfl⟩
    rfl

/-- A concrete lead record used to instantiate the CSV theorem. -/
def sampleLead : RawLead :=
  { id := 1
    name := "Lead A"
    partner_name := .pystr "Acme"
    contact_name := .pynone
    email_from := .pystr "a@acme.test"
    phone := .pynone
    user_id := some (4, "Alice")
    team_id := none
    stage_id := some (2, "WARM")
    leadType := .pystr "opportunity"
    probability := .pyfloat 0
    expected_revenue := .pyfloat 0
    date_deadline := .pynone
    create_date := .pystr "2025-01-01 00:00:00"
    write_date := .pystr "2025-01-02 00:00:00"
    tag_ids := [3]
    priority := .pystr "1" }

theorem get_leads_csv_spec_witness :
    ∃ rows, get_leads_csv [sampleLead] = some rows ∧
      csvHeaderOf rows =
        ["id", "name", "partner_name", "contact_name", "email", "phone",
         "user_name", "team_name", "stage_name", "type", "probability",
         "expected_revenue", "date_deadline", "create_date", "write_date",
         "priority"] ∧
      rows.length = 1 := by
  obtain ⟨rows, h1, h2, _, h4, _⟩ := get_leads_csv_spec [sampleLead] (by simp)
  exact ⟨rows, h1, h2, by simpa using h4⟩

/-- One calendar.event record fetched by the meeting-statistics query of
get_dashboard_data in connector routes dashboard.py. -/
structure Meeting where
  name : PyVal
  start : PyVal
  stop : PyVal
  opportunity_id : Option Int

/-- Appending a meeting to the dict entry of its lead inside the
grouping loop of get_dashboard_data: extend an existing group or create
a new one at the end. -/
def addToGroup : List (Int × List Meeting) → Int → Meeting → List (Int × List Meeting)
  | [], lid, m => [(lid, [m])]
  | (k, ms) :: t, lid, m =>
      if k = lid then (k, ms ++ [m]) :: t else (k, ms) :: addToGroup t lid m

/-- One iteration of the grouping loop of get_dashboard_data: a meeting
with a truthy opportunity_id joins the group of its lead; one without
is skipped. -/
def groupStep (g : List (Int × List Meeting)) (m : Meeting) : List (Int × List Meeting) :=
  match m.opportunity_id with
  | some lid => addToGroup g lid m
  | none => g

/-- The lead_meetings dict of get_dashboard_data: meetings grouped by
the lead of their truthy opportunity_id, in encounter order. -/
def groupMeetings (meetings : List Meeting) : List (Int × List Meeting) :=
  meetings.foldl groupStep []

/-- MeetingStats as constructed by get_dashboard_data in connector
routes dashboard.py. -/
structure MeetingStats where
  first_meetings : Nat
  second_meetings : Nat
  third_meetings : Nat
  more_meetings : Nat
  total_meetings : Nat

/-- One iteration of the counting loop of get_dashboard_data over the
grouped meetings: a lead contributes to the k-th accumulator when it
has at least k meetings (at least four for the more bucket). -/
def countStep (acc : Nat × Nat × Nat × Nat) (g : Int × List Meeting) :
    Nat × Nat × Nat × Nat :=
  (acc.1 + if 1 ≤ g.2.length then 1 else 0,
   acc.2.1 + if 2 ≤ g.2.length then 1 else 0,
   acc.2.2.1 + if 3 ≤ g.2.length then 1 else 0,
   acc.2.2.2 + if 4 ≤ g.2.length then 1 else 0)

/-- The meeting_stats value of the dashboard response in connector
routes dashboard.py: bucket counts from the grouped meetings and
total_meetings as the length of the fetched meetings list. -/
def dashboardMeetingStats (meetings_data : List Meeting) : MeetingStats :=
  let c := (groupMeetings meetings_data).foldl countStep (0, 0, 0, 0)
  ⟨c.1, c.2.1, c.2.2.1, c.2.2.2, meetings_data.length⟩

theorem countFold_bounds (groups : List (Int × List Meeting)) :
    ∀ a : Nat × Nat × Nat × Nat,
      a.2.1 ≤ a.1 → a.2.2.1 ≤ a.2.1 → a.2.2.2 ≤ a.2.2.1 →
      (groups.foldl countStep a).1 ≤ a.1 + groups.length ∧
      (groups.foldl countStep a).2.1 ≤ (groups.foldl countStep a).1 ∧
      (groups.foldl countStep a).2.2.1 ≤ (groups.foldl countStep a).2.1 ∧
      (groups.foldl countStep a).2.2.2 ≤ (groups.foldl countStep a).2.2.1 := by
  induction groups with
  | nil =>
      intro a h1 h2 h3
      simpa using ⟨h1, h2, h3⟩
  | cons g t ih =>
      intro a h1 h2 h3
      have hs1 : (countStep a g).2.1 ≤ (countStep a g).1 := by
        simp only [countStep]; split_ifs <;> omega
      have hs2 : (countStep a g).2.2.1 ≤ (countStep a g).2.1 := by
        simp only [countStep]; split_ifs <;> omega
      have hs3 : (countStep a g).2.2.2 ≤ (countStep a g).2.2.1 := by
        simp only [countStep]; split_ifs <;> omega
      have hstep : (countStep a g).1 ≤ a.1 + 1 := by
        simp only [countStep]; split_ifs <;> omega
      obtain ⟨ih1, ih2, ih3, ih4⟩ := ih (countStep a g) hs1 hs2 hs3
      refine ⟨?_, by simpa using ih2, by simpa using ih3, by simpa using ih4⟩
      simp only [List.foldl_cons, List.length_cons]
      omega

theorem addToGroup_length (g : List (Int × List Meeting)) (lid : Int) (m : Meeting) :
    (addToGroup g lid m).length ≤ g.length + 1 := by
  induction g with
  | nil => simp [addToGroup]
  | cons p t ih =>
      rcases p with ⟨k, ms⟩
      by_cases h : k = lid
      · simp [addToGroup, h]
      · simp only [addToGroup, h, if_false, List.length_cons]
        omega

theorem groupMeetings_length (meetings : List Meeting) :
    (groupMeetings meetings).length ≤ meetings.length := by
  have key : ∀ (ms : List Meeting) (g0 : List (Int × List Meeting)),
      (ms.foldl groupStep g0).length ≤ g0.length + ms.length := by
    intro ms
    induction ms with
    | nil => intro g0; simp
    | cons m t ih =>
        intro g0
        simp only [List.foldl_cons, List.length_cons]
        cases ho : m.opportunity_id with
        | none =>
            have hstep : groupStep g0 m = g0 := by simp [groupStep, ho]
            rw [hstep]
            have := ih g0
            omega
        | some lid =>
            have hstep : groupStep g0 m = addToGroup g0 lid m := by simp [groupStep, ho]
            rw [hstep]
            have h1 := ih (addToGroup g0 lid m)
            have h2 := addToGroup_length g0 lid m
            omega
  simpa using key meetings []

/-- C10: in the dashboard meeting statistics, first_meetings is at least
second_meetings, which is at least third_meetings, which is at least
more_meetings, and first_meetings never exceeds total_meetings: a lead
is counted in the k-th bucket only when it has at least k meetings, and
total_meetings is the number of all fetched meetings. -/
theorem dashboard_meeting_stats_invariant (meetings_data : List Meeting) :
    (dashboardMeetingStats meetings_data).second_meetings ≤
      (dashboardMeetingStats meetings_data).first_meetings ∧
    (dashboardMeetingStats meetings_data).third_meetings ≤
      (dashboardMeetingStats meetings_data).second_meetings ∧
    (dashboardMeetingStats meetings_data).more_meetings ≤
      (dashboardMeetingStats meetings_data).third_meetings ∧
    (dashboardMeetingStats meetings_data).first_meetings ≤
      (dashboardMeetingStats meetings_data).total_meetings := by
  obtain ⟨h1, h2, h3, h4⟩ :=
    countFold_bounds (groupMeetings meetings_data) (0, 0, 0, 0) le_rfl le_rfl le_rfl
  have hlen := groupMeetings_length meetings_data
  refine ⟨h2, h3, h4, ?_⟩
  show ((groupMeetings meetings_data).foldl countStep (0, 0, 0, 0)).1 ≤ meetings_data.length
  omega
